import Mathlib

/-!
Verification of the pairing/relay core of the anonymous-chat backend
(chat-backend/main.py), as a shallow embedding in Lean.

Modelling conventions:
* A JSON payload handed to websocket.send_json is a list of string-valued
  fields (every payload this program builds has only string values).
* A `ChatUser` is the pair of the token-derived username and an opaque
  connection-handle id.  Python compares ChatUser objects by object
  identity (no custom eq is defined); distinct live connections hold
  distinct ChatUser objects, which the handle id captures, so structural
  equality here models Python object identity.
* `active_pairs` (a Python dict) is an insertion-ordered association list.
  A Python dict can never hold a key twice, so `dictPop` removes every
  binding of the key and `dictInsert` replaces the first one in place;
  on states that represent real dicts the two readings coincide.
* Python stores a session as the two-element list [user, partner]; we use
  the ordered pair (user, partner), positions preserved.
* An `await websocket.send_json(m)` to connection c is recorded as the
  event (c, m) in the returned send list.
* An uncaught Python exception (json.JSONDecodeError from json.loads,
  KeyError from a missing dict field) is an `Except.error` outcome: it
  escapes the receive loop, which only catches WebSocketDisconnect, so
  the connection handler terminates.
-/

/-- A JSON object with string-valued fields, as built for send_json. -/
abbrev JObj := List (String × String)

/-- One outbound send event: target connection handle and payload. -/
abbrev Sent := Nat × JObj

/-- ChatUser from main.py: username plus the websocket it wraps
(the websocket is abstracted to a connection-handle id). -/
structure ChatUser where
  username : String
  conn : Nat
deriving DecidableEq

/-- A registered session value: Python's two-element list [user, partner]. -/
abbrev Session := ChatUser × ChatUser

/-- PairingManager state: the FIFO waiting list and the session registry
(active_pairs : dict from session id to member list). -/
structure PairingManager where
  waiting_users : List ChatUser
  active_pairs : List (String × Session)
deriving DecidableEq

/-- Dict lookup: value of the first (only) binding of the key. -/
def dictGet? (d : List (String × Session)) (k : String) : Option Session :=
  match d with
  | [] => none
  | (k2, v) :: rest => if k2 = k then some v else dictGet? rest k

/-- Dict assignment d[k] = v: replace the binding in place if the key is
present, otherwise append it (Python dicts keep insertion order). -/
def dictInsert (d : List (String × Session)) (k : String) (v : Session) :
    List (String × Session) :=
  match d with
  | [] => [(k, v)]
  | (k2, v2) :: rest =>
       if k2 = k then (k, v) :: rest else (k2, v2) :: dictInsert rest k v

/-- Dict d.pop(k): drop the binding of k (a real dict holds it at most
once; we drop every binding so no separate uniqueness invariant is
needed). -/
def dictPop (d : List (String × Session)) (k : String) :
    List (String × Session) :=
  match d with
  | [] => []
  | (k2, v) :: rest =>
       if k2 = k then dictPop rest k else (k2, v) :: dictPop rest k

/-- The session_start payload sent to one member. -/
def sessionStartMsg (session_id partner : String) : JObj :=
  [("type", "session_start"), ("session_id", session_id), ("partner", partner)]

/-- The session_end payload. -/
def sessionEndMsg (session_id : String) : JObj :=
  [("type", "session_end"), ("session_id", session_id)]

/-- The relayed chat_message payload. -/
def chatMsg (session_id user message : String) : JObj :=
  [("type", "chat_message"), ("session_id", session_id),
   ("user", user), ("message", message)]

/-- The positional partner lookup of PairingManager.start_session:
users[1].username if user == users[0] else users[0].username. -/
def partnerOf (users : Session) (user : ChatUser) : String :=
  if user = users.1 then users.2.username else users.1.username

/-- PairingManager.start_session: look the session up in active_pairs and
send each member a session_start naming its positional partner.
(The none branch would be a Python KeyError; every caller inserts the
key immediately before calling, so it is unreachable.) -/
def start_session (pm : PairingManager) (session_id : String) : List Sent :=
  match dictGet? pm.active_pairs session_id with
  | none => []
  | some users =>
      [ (users.1.conn, sessionStartMsg session_id (partnerOf users users.1)),
        (users.2.conn, sessionStartMsg session_id (partnerOf users users.2)) ]

/-- PairingManager.add_user: if someone is waiting, pop the head, build
the session id by f-string concatenation, register [user, partner] and
run start_session; otherwise append the arrival to the waiting list. -/
def add_user (pm : PairingManager) (user : ChatUser) :
    PairingManager × List Sent :=
  match pm.waiting_users with
  | partner :: rest =>
      let session_id := user.username ++ "-" ++ partner.username
      let pm2 : PairingManager :=
        { waiting_users := rest,
          active_pairs := dictInsert pm.active_pairs session_id (user, partner) }
      (pm2, start_session pm2 session_id)
  | [] =>
      ({ pm with waiting_users := pm.waiting_users ++ [user] }, [])

/-- PairingManager.end_session: if the id is registered, pop the session
and send session_end to both members; otherwise do nothing. -/
def end_session (pm : PairingManager) (session_id : String) :
    PairingManager × List Sent :=
  match dictGet? pm.active_pairs session_id with
  | some users =>
      ({ pm with active_pairs := dictPop pm.active_pairs session_id },
       [ (users.1.conn, sessionEndMsg session_id),
         (users.2.conn, sessionEndMsg session_id) ])
  | none => (pm, [])

/-- An inbound frame: either text whose json.loads raises (malformed), or
a parsed JSON object with string-valued fields. -/
inductive Inbound where
  | malformed : Inbound
  | obj : JObj → Inbound
deriving DecidableEq

/-- The Python exceptions the receive loop can raise (and does not catch). -/
inductive PyExn where
  | jsonDecodeError : PyExn
  | keyError : String → PyExn
deriving DecidableEq

/-- message[k] as an Option: none models the KeyError case. -/
def jget (m : JObj) (k : String) : Option String :=
  match m with
  | [] => none
  | (k2, v) :: rest => if k2 = k then some v else jget rest k

/-- One iteration of the websocket_endpoint receive loop for a connection
whose token verified to `username`: parse, dispatch on message["type"],
relay a chat_message to every member of a registered session, or run
end_session; any other type falls through both branches and is ignored.
An error outcome is an uncaught exception: the loop dies with it. -/
def handle_message (pm : PairingManager) (username : String) (inb : Inbound) :
    Except PyExn (PairingManager × List Sent) :=
  match inb with
  | .malformed => .error .jsonDecodeError
  | .obj m =>
      match jget m "type" with
      | none => .error (.keyError "type")
      | some t =>
          if t = "chat_message" then
            match jget m "session_id" with
            | none => .error (.keyError "session_id")
            | some session_id =>
                match dictGet? pm.active_pairs session_id with
                | some users =>
                    match jget m "content" with
                    | none => .error (.keyError "content")
                    | some content =>
                        .ok (pm,
                          [ (users.1.conn, chatMsg session_id username content),
                            (users.2.conn, chatMsg session_id username content) ])
                | none => .ok (pm, [])
          else if t = "end_session" then
            match jget m "session_id" with
            | none => .error (.keyError "session_id")
            | some session_id => .ok (end_session pm session_id)
          else
            .ok (pm, [])

/-- The first registered session whose member list contains the user
(iteration order of active_pairs.items(), membership by ==). -/
def findSessionOf (d : List (String × Session)) (user : ChatUser) :
    Option String :=
  match d with
  | [] => none
  | (sid, users) :: rest =>
      if user = users.1 ∨ user = users.2 then some sid
      else findSessionOf rest user

/-- waiting_users.remove(user): drop the first occurrence. -/
def removeFirst (l : List ChatUser) (u : ChatUser) : List ChatUser :=
  match l with
  | [] => []
  | x :: rest => if x = u then rest else x :: removeFirst rest u

/-- user in waiting_users (membership by ==). -/
def memB (l : List ChatUser) (u : ChatUser) : Bool :=
  match l with
  | [] => false
  | x :: rest => if x = u then true else memB rest u

/-- The WebSocketDisconnect handler of websocket_endpoint: end the first
session containing the user (then break), and remove the user from the
waiting list if present. -/
def handle_disconnect (pm : PairingManager) (chat_user : ChatUser) :
    PairingManager × List Sent :=
  let r :=
    match findSessionOf pm.active_pairs chat_user with
    | some sid => end_session pm sid
    | none => (pm, [])
  if memB r.1.waiting_users chat_user then
    ({ r.1 with waiting_users := removeFirst r.1.waiting_users chat_user }, r.2)
  else r

/-- Occurrences of a client in a plain list. -/
def countIn (l : List ChatUser) (u : ChatUser) : Nat :=
  match l with
  | [] => 0
  | x :: rest => (if x = u then 1 else 0) + countIn rest u

/-- Occurrences of a client across all registered member lists. -/
def countPairs (d : List (String × Session)) (u : ChatUser) : Nat :=
  match d with
  | [] => 0
  | (_, s) :: rest =>
      (if s.1 = u then 1 else 0) + (if s.2 = u then 1 else 0) + countPairs rest u

/-- Occurrences of a client across the waiting list and every session. -/
def countClient (pm : PairingManager) (u : ChatUser) : Nat :=
  countIn pm.waiting_users u + countPairs pm.active_pairs u

/-- One core operation, as the claims list them: enqueue_or_match with a
freshly constructed ChatUser (each connection builds its own object, so
it cannot already occur anywhere), the disconnect cleanup, and
unregister/end_session (register only happens inside add_user). -/
inductive Step : PairingManager → PairingManager → Prop where
  | add : ∀ pm user, countClient pm user = 0 → Step pm (add_user pm user).1
  | disconnect : ∀ pm user, Step pm (handle_disconnect pm user).1
  | endSession : ∀ pm sid, Step pm (end_session pm sid).1

/-- States reachable from the empty manager by core operations. -/
inductive Reachable : PairingManager → Prop where
  | init : Reachable ⟨[], []⟩
  | step : ∀ pm pm2, Reachable pm → Step pm pm2 → Reachable pm2

/-! ## Helper lemmas -/

theorem dictGet?_insert_self (d : List (String × Session)) (k : String)
    (v : Session) : dictGet? (dictInsert d k v) k = some v := by
  induction d with
  | nil => simp [dictInsert, dictGet?]
  | cons hd tl ih =>
      obtain ⟨k2, v2⟩ := hd
      by_cases h : k2 = k
      · simp [dictInsert, dictGet?, h]
      · simp [dictInsert, dictGet?, h, ih]

theorem dictGet?_pop_self (d : List (String × Session)) (k : String) :
    dictGet? (dictPop d k) k = none := by
  induction d with
  | nil => simp [dictPop, dictGet?]
  | cons hd tl ih =>
      obtain ⟨k2, v2⟩ := hd
      by_cases h : k2 = k
      · simp [dictPop, h, ih]
      · simp [dictPop, dictGet?, h, ih]

/-! ## C1: enqueue_or_match -/

/-- Claim C1: on a non-empty Waiting List, add_user removes the head and
registers a new session whose two members are exactly that head and the
arriving client (positions [arrival, head]); on an empty Waiting List it
appends the arrival and forms no session (registry unchanged, no sends). -/
theorem C1_enqueue_or_match (pm : PairingManager) (user : ChatUser) :
    (∀ partner rest, pm.waiting_users = partner :: rest →
        (add_user pm user).1.waiting_users = rest ∧
        dictGet? (add_user pm user).1.active_pairs
            (user.username ++ "-" ++ partner.username) = some (user, partner)) ∧
    (pm.waiting_users = [] →
        (add_user pm user).1.waiting_users = pm.waiting_users ++ [user] ∧
        (add_user pm user).1.active_pairs = pm.active_pairs ∧
        (add_user pm user).2 = []) := by
  constructor
  · intro partner rest hw
    simp [add_user, hw, dictGet?_insert_self]
  · intro hw
    simp [add_user, hw]

theorem C1_enqueue_or_match_w :
    ((add_user ⟨[⟨"A", 0⟩], []⟩ ⟨"B", 1⟩).1.waiting_users = [] ∧
      dictGet? (add_user ⟨[⟨"A", 0⟩], []⟩ ⟨"B", 1⟩).1.active_pairs
          ("B" ++ "-" ++ "A") = some (⟨"B", 1⟩, ⟨"A", 0⟩)) ∧
    ((add_user ⟨[], []⟩ ⟨"A", 0⟩).1.waiting_users = [⟨"A", 0⟩] ∧
      (add_user ⟨[], []⟩ ⟨"A", 0⟩).2 = []) := by
  refine ⟨(C1_enqueue_or_match ⟨[⟨"A", 0⟩], []⟩ ⟨"B", 1⟩).1 ⟨"A", 0⟩ [] rfl, ?_, ?_⟩
  · exact ((C1_enqueue_or_match ⟨[], []⟩ ⟨"A", 0⟩).2 rfl).1
  · exact ((C1_enqueue_or_match ⟨[], []⟩ ⟨"A", 0⟩).2 rfl).2.2

/-! ## C2: partner naming at session start -/

/-- Claim C2: when a match forms a session, the session_start sent to each
member names exactly the other member's identity as partner, determined
positionally; given distinct clients with distinct identities (the spec's
User Identity is a unique handle), neither member is told its own
identity and no third identity appears. -/
theorem C2_partner_naming (pm : PairingManager) (user partner : ChatUser)
    (rest : List ChatUser)
    (hw : pm.waiting_users = partner :: rest)
    (hobj : user ≠ partner)
    (hid : user.username ≠ partner.username) :
    (add_user pm user).2 =
      [ (user.conn,
          sessionStartMsg (user.username ++ "-" ++ partner.username)
            partner.username),
        (partner.conn,
          sessionStartMsg (user.username ++ "-" ++ partner.username)
            user.username) ] ∧
    partner.username ≠ user.username := by
  have hpo : partner ≠ user := fun h => hobj h.symm
  constructor
  · simp [add_user, hw, start_session, dictGet?_insert_self, partnerOf, hpo]
  · exact fun h => hid h.symm

theorem C2_partner_naming_w :
    (add_user ⟨[⟨"A", 0⟩], []⟩ ⟨"B", 1⟩).2 =
      [ (1, sessionStartMsg ("B" ++ "-" ++ "A") "A"),
        (0, sessionStartMsg ("B" ++ "-" ++ "A") "B") ] ∧
    ("A" : String) ≠ "B" := by
  exact C2_partner_naming ⟨[⟨"A", 0⟩], []⟩ ⟨"B", 1⟩ ⟨"A", 0⟩ [] rfl
    (by decide) (by decide)

/-! ## C3: chat_message relay broadcast -/

/-- Claim C3: an inbound chat_message from a member of a registered
session is relayed to every member of that session, the sender included,
and each outbound payload carries exactly the fields type =
chat_message, session_id, user = sender identity, message = inbound
content. -/
theorem C3_relay_broadcast (pm : PairingManager) (uname : String)
    (m : JObj) (sid content : String) (a b : ChatUser)
    (ht : jget m "type" = some "chat_message")
    (hs : jget m "session_id" = some sid)
    (hc : jget m "content" = some content)
    (hsess : dictGet? pm.active_pairs sid = some (a, b))
    (_hmem : uname = a.username ∨ uname = b.username) :
    handle_message pm uname (.obj m) =
      .ok (pm,
        [ (a.conn,
            [("type", "chat_message"), ("session_id", sid),
             ("user", uname), ("message", content)]),
          (b.conn,
            [("type", "chat_message"), ("session_id", sid),
             ("user", uname), ("message", content)]) ]) := by
  simp [handle_message, ht, hs, hc, hsess, chatMsg]

theorem C3_relay_broadcast_w :
    handle_message ⟨[], [("B-A", (⟨"B", 1⟩, ⟨"A", 0⟩))]⟩ "A"
        (.obj [("type", "chat_message"), ("session_id", "B-A"),
               ("content", "hi")]) =
      .ok (⟨[], [("B-A", (⟨"B", 1⟩, ⟨"A", 0⟩))]⟩,
        [ (1, [("type", "chat_message"), ("session_id", "B-A"),
               ("user", "A"), ("message", "hi")]),
          (0, [("type", "chat_message"), ("session_id", "B-A"),
               ("user", "A"), ("message", "hi")]) ]) := by
  exact C3_relay_broadcast ⟨[], [("B-A", (⟨"B", 1⟩, ⟨"A", 0⟩))]⟩ "A"
    [("type", "chat_message"), ("session_id", "B-A"), ("content", "hi")]
    "B-A" "hi" ⟨"B", 1⟩ ⟨"A", 0⟩ (by decide) (by decide) (by decide)
    (by decide) (Or.inr rfl)

/-! ## C4: abrupt disconnect while paired -/

/-- Claim C4: if a disconnects abruptly while paired with b (the registry
maps sid to the two of them, and sid is the first session containing a),
the disconnect handler sends b a session_end for sid and afterwards sid
is absent from the registry. -/
theorem C4_disconnect_paired (pm : PairingManager) (sid : String)
    (a b : ChatUser)
    (hfind : findSessionOf pm.active_pairs a = some sid)
    (hget : dictGet? pm.active_pairs sid = some (a, b) ∨
            dictGet? pm.active_pairs sid = some (b, a)) :
    (b.conn, sessionEndMsg sid) ∈ (handle_disconnect pm a).2 ∧
    dictGet? (handle_disconnect pm a).1.active_pairs sid = none := by
  have hpop : dictGet? (dictPop pm.active_pairs sid) sid = none :=
    dictGet?_pop_self pm.active_pairs sid
  rcases hget with hget | hget
  · constructor
    · simp [handle_disconnect, hfind, end_session, hget]
      by_cases hmem : memB pm.waiting_users a <;> simp [hmem]
    · simp [handle_disconnect, hfind, end_session, hget]
      by_cases hmem : memB pm.waiting_users a <;> simp [hmem, hpop]
  · constructor
    · simp [handle_disconnect, hfind, end_session, hget]
      by_cases hmem : memB pm.waiting_users a <;> simp [hmem]
    · simp [handle_disconnect, hfind, end_session, hget]
      by_cases hmem : memB pm.waiting_users a <;> simp [hmem, hpop]

theorem C4_disconnect_paired_w :
    ((0 : Nat), sessionEndMsg "B-A") ∈
      (handle_disconnect ⟨[], [("B-A", (⟨"B", 1⟩, ⟨"A", 0⟩))]⟩ ⟨"B", 1⟩).2 ∧
    dictGet?
      (handle_disconnect ⟨[], [("B-A", (⟨"B", 1⟩, ⟨"A", 0⟩))]⟩ ⟨"B", 1⟩).1.active_pairs
      "B-A" = none := by
  exact C4_disconnect_paired ⟨[], [("B-A", (⟨"B", 1⟩, ⟨"A", 0⟩))]⟩ "B-A"
    ⟨"B", 1⟩ ⟨"A", 0⟩ (by decide) (Or.inl (by decide))

/-! ## C6: relay to an unknown session id -/

/-- Claim C6: a chat_message naming a session id that is not in the
registry is the UnknownSession case: the handler skips the relay, the
manager state is unchanged, nothing is sent to any connection, and the
receive loop continues (ok outcome, so the connection stays alive). -/
theorem C6_unknown_session (pm : PairingManager) (uname : String)
    (m : JObj) (sid : String)
    (ht : jget m "type" = some "chat_message")
    (hs : jget m "session_id" = some sid)
    (hnone : dictGet? pm.active_pairs sid = none) :
    handle_message pm uname (.obj m) = .ok (pm, []) := by
  simp [handle_message, ht, hs, hnone]

theorem C6_unknown_session_w :
    handle_message ⟨[], []⟩ "A"
        (.obj [("type", "chat_message"), ("session_id", "B-A"),
               ("content", "hi")]) = .ok (⟨[], []⟩, []) := by
  exact C6_unknown_session ⟨[], []⟩ "A"
    [("type", "chat_message"), ("session_id", "B-A"), ("content", "hi")]
    "B-A" (by decide) (by decide) (by decide)

/-! ## C7: single-winner unregister -/

/-- Claim C7: for a registered session id, the first end_session pops the
session and sends exactly one session_end to each member; a second
end_session on the resulting state receives nothing, changes nothing and
sends nothing, so each member gets at most one session_end. (In the
source the membership test and the pop run with no await between them,
so two racing coroutines cannot both pass the test.) -/
theorem C7_unregister_once (pm : PairingManager) (sid : String)
    (a b : ChatUser)
    (h : dictGet? pm.active_pairs sid = some (a, b)) :
    (end_session pm sid).2 =
      [ (a.conn, sessionEndMsg sid), (b.conn, sessionEndMsg sid) ] ∧
    dictGet? (end_session pm sid).1.active_pairs sid = none ∧
    end_session (end_session pm sid).1 sid = ((end_session pm sid).1, []) := by
  have hpop : dictGet? (dictPop pm.active_pairs sid) sid = none :=
    dictGet?_pop_self pm.active_pairs sid
  refine ⟨by simp [end_session, h], by simp [end_session, h, hpop], ?_⟩
  simp [end_session, h, hpop]

theorem C7_unregister_once_w :
    (end_session ⟨[], [("B-A", (⟨"B", 1⟩, ⟨"A", 0⟩))]⟩ "B-A").2 =
      [ (1, sessionEndMsg "B-A"), (0, sessionEndMsg "B-A") ] ∧
    dictGet?
      (end_session ⟨[], [("B-A", (⟨"B", 1⟩, ⟨"A", 0⟩))]⟩ "B-A").1.active_pairs
      "B-A" = none ∧
    end_session (end_session ⟨[], [("B-A", (⟨"B", 1⟩, ⟨"A", 0⟩))]⟩ "B-A").1
        "B-A" =
      ((end_session ⟨[], [("B-A", (⟨"B", 1⟩, ⟨"A", 0⟩))]⟩ "B-A").1, []) := by
  exact C7_unregister_once ⟨[], [("B-A", (⟨"B", 1⟩, ⟨"A", 0⟩))]⟩ "B-A"
    ⟨"B", 1⟩ ⟨"A", 0⟩ (by decide)

/-! ## C5: malformed inbound messages -/

/-- Counterexample to claim C5: an unparseable frame, and a parsed object
with no type field, are not ignored — json.loads and message["type"]
raise, the receive loop only catches WebSocketDisconnect, so the
exception escapes and the connection handler dies instead of staying
alive. Shown at the empty-manager state for a connection named A. -/
theorem C5_malformed_cex :
    handle_message ⟨[], []⟩ "A" Inbound.malformed =
      .error PyExn.jsonDecodeError ∧
    handle_message ⟨[], []⟩ "A" (Inbound.obj [("foo", "bar")]) =
      .error (PyExn.keyError "type") := by
  constructor <;> rfl

/-- Claim C5 as amended: only a message that parses to an object carrying
a type field with an unrecognized value is ignored (ok outcome, state
unchanged, nothing sent, connection stays alive); an unparseable frame,
or an object lacking the type field, instead raises an uncaught
exception that terminates the connection handler — though the Waiting
List and Session Registry are still left unchanged in those cases. -/
theorem C5_malformed_amended (pm : PairingManager) (uname : String)
    (m bad : JObj) (t : String)
    (ht : jget m "type" = some t)
    (h1 : t ≠ "chat_message") (h2 : t ≠ "end_session")
    (hbad : jget bad "type" = none) :
    handle_message pm uname (.obj m) = .ok (pm, []) ∧
    handle_message pm uname .malformed = .error .jsonDecodeError ∧
    handle_message pm uname (.obj bad) = .error (.keyError "type") := by
  refine ⟨by simp [handle_message, ht, h1, h2], rfl, ?_⟩
  simp [handle_message, hbad]

theorem C5_malformed_amended_w :
    handle_message ⟨[], []⟩ "A" (.obj [("type", "ping")]) =
      .ok (⟨[], []⟩, []) ∧
    handle_message ⟨[], []⟩ "A" .malformed = .error .jsonDecodeError ∧
    handle_message ⟨[], []⟩ "A" (.obj [("foo", "bar")]) =
      .error (.keyError "type") := by
  exact C5_malformed_amended ⟨[], []⟩ "A" [("type", "ping")] [("foo", "bar")]
    "ping" (by decide) (by decide) (by decide) (by decide)

/-! ## C8: session-id derivation and uniqueness -/

/-- Counterexample to claim C8: usernames z, x-y, y-z, x (all distinct)
arriving in that order produce two matches whose concatenated ids both
equal x-y-z. Before the fourth arrival the registry maps x-y-z to the
pair of x-y and z; the fourth arrival's formation neither fails nor
retries: it proceeds and overwrites that mapping with the pair of x and
y-z, reusing the id while it was still mapped. -/
theorem C8_session_id_cex :
    dictGet?
      (add_user (add_user (add_user ⟨[], []⟩ ⟨"z", 1⟩).1 ⟨"x-y", 2⟩).1
          ⟨"y-z", 3⟩).1.active_pairs "x-y-z" =
      some (⟨"x-y", 2⟩, ⟨"z", 1⟩) ∧
    dictGet?
      (add_user (add_user (add_user (add_user ⟨[], []⟩ ⟨"z", 1⟩).1
          ⟨"x-y", 2⟩).1 ⟨"y-z", 3⟩).1 ⟨"x", 4⟩).1.active_pairs "x-y-z" =
      some (⟨"x", 4⟩, ⟨"y-z", 3⟩) := by
  constructor <;> rfl

/-- Claim C8 as amended: the session id is derived deterministically from
the two member identities (arriving username, a dash, waiting username),
but no uniqueness is enforced: formation always proceeds, writing the
pair into the registry with plain dict assignment, so a colliding id
silently overwrites the existing session instead of failing or retrying,
and an id can be reused while mapped. -/
theorem C8_session_id_amended (pm : PairingManager) (user partner : ChatUser)
    (rest : List ChatUser)
    (hw : pm.waiting_users = partner :: rest) :
    (add_user pm user).1.active_pairs =
      dictInsert pm.active_pairs (user.username ++ "-" ++ partner.username)
        (user, partner) ∧
    dictGet? (add_user pm user).1.active_pairs
        (user.username ++ "-" ++ partner.username) = some (user, partner) := by
  refine ⟨by simp [add_user, hw], ?_⟩
  simp [add_user, hw, dictGet?_insert_self]

theorem C8_session_id_amended_w :
    (add_user ⟨[⟨"y-z", 3⟩], [("x-y-z", (⟨"x-y", 2⟩, ⟨"z", 1⟩))]⟩
        ⟨"x", 4⟩).1.active_pairs =
      dictInsert [("x-y-z", (⟨"x-y", 2⟩, ⟨"z", 1⟩))] ("x" ++ "-" ++ "y-z")
        (⟨"x", 4⟩, ⟨"y-z", 3⟩) ∧
    dictGet?
      (add_user ⟨[⟨"y-z", 3⟩], [("x-y-z", (⟨"x-y", 2⟩, ⟨"z", 1⟩))]⟩
          ⟨"x", 4⟩).1.active_pairs ("x" ++ "-" ++ "y-z") =
      some (⟨"x", 4⟩, ⟨"y-z", 3⟩) := by
  exact C8_session_id_amended
    ⟨[⟨"y-z", 3⟩], [("x-y-z", (⟨"x-y", 2⟩, ⟨"z", 1⟩))]⟩ ⟨"x", 4⟩ ⟨"y-z", 3⟩ []
    rfl

/-! ## C10: the outbound user field -/

theorem handle_message_chat_user_field (pm : PairingManager) (uname : String)
    (m : JObj) (st : PairingManager) (out : List Sent)
    (hok : handle_message pm uname (.obj m) = .ok (st, out)) :
    ∀ c o, (c, o) ∈ out → jget o "type" = some "chat_message" →
      jget o "user" = some uname := by
  intro c o hco hty
  simp only [handle_message] at hok
  cases h1 : jget m "type" with
  | none => simp [h1] at hok
  | some t =>
      simp only [h1] at hok
      by_cases htc : t = "chat_message"
      · simp only [htc, if_pos] at hok
        cases h2 : jget m "session_id" with
        | none => simp [h2] at hok
        | some sid =>
            simp only [h2] at hok
            cases h3 : dictGet? pm.active_pairs sid with
            | none =>
                simp only [h3, Except.ok.injEq, Prod.mk.injEq] at hok
                rw [← hok.2] at hco
                simp at hco
            | some users =>
                simp only [h3] at hok
                cases h4 : jget m "content" with
                | none => simp [h4] at hok
                | some content =>
                    simp only [h4, Except.ok.injEq, Prod.mk.injEq] at hok
                    rw [← hok.2] at hco
                    simp only [List.mem_cons, List.mem_singleton,
                      List.not_mem_nil, or_false, Prod.mk.injEq] at hco
                    rcases hco with ⟨_, rfl⟩ | ⟨_, rfl⟩ <;> simp [chatMsg, jget]
      · rw [if_neg htc] at hok
        by_cases hte : t = "end_session"
        · rw [if_pos hte] at hok
          cases h2 : jget m "session_id" with
          | none => simp [h2] at hok
          | some sid =>
              simp only [h2, Except.ok.injEq] at hok
              have hout : out = (end_session pm sid).2 := by rw [hok]
              rw [hout] at hco
              cases h3 : dictGet? pm.active_pairs sid with
              | none => simp [end_session, h3] at hco
              | some users =>
                  simp only [end_session, h3, List.mem_cons, List.mem_singleton,
                    List.not_mem_nil, or_false, Prod.mk.injEq] at hco
                  rcases hco with ⟨_, rfl⟩ | ⟨_, rfl⟩ <;>
                    simp [sessionEndMsg, jget] at hty
        · rw [if_neg hte] at hok
          simp only [Except.ok.injEq, Prod.mk.injEq] at hok
          rw [← hok.2] at hco
          simp at hco

/-- Claim C10: the relayed user field is exactly the username verified
from the connection's token, and the handler's outcome depends on the
inbound object only through its type, session_id and content fields: two
inbound objects agreeing on those three produce identical outcomes, any
extra inbound fields notwithstanding, and every relayed chat_message
carries user = that token-derived username. -/
theorem C10_sender_identity (pm : PairingManager) (uname : String)
    (m1 m2 : JObj)
    (ht : jget m1 "type" = jget m2 "type")
    (hs : jget m1 "session_id" = jget m2 "session_id")
    (hc : jget m1 "content" = jget m2 "content") :
    handle_message pm uname (.obj m1) = handle_message pm uname (.obj m2) ∧
    (∀ st out, handle_message pm uname (.obj m1) = .ok (st, out) →
       ∀ c o, (c, o) ∈ out → jget o "type" = some "chat_message" →
         jget o "user" = some uname) := by
  refine ⟨?_, fun st out hok =>
    handle_message_chat_user_field pm uname m1 st out hok⟩
  simp only [handle_message, ht, hs, hc]

theorem C10_sender_identity_w :
    handle_message ⟨[], [("B-A", (⟨"B", 1⟩, ⟨"A", 0⟩))]⟩ "A"
        (.obj [("type", "chat_message"), ("session_id", "B-A"),
               ("content", "hi"), ("user", "EVIL")]) =
      handle_message ⟨[], [("B-A", (⟨"B", 1⟩, ⟨"A", 0⟩))]⟩ "A"
        (.obj [("extra", "x"), ("type", "chat_message"),
               ("session_id", "B-A"), ("content", "hi")]) ∧
    jget (chatMsg "B-A" "A" "hi") "user" = some "A" := by
  have h := C10_sender_identity ⟨[], [("B-A", (⟨"B", 1⟩, ⟨"A", 0⟩))]⟩ "A"
    [("type", "chat_message"), ("session_id", "B-A"),
     ("content", "hi"), ("user", "EVIL")]
    [("extra", "x"), ("type", "chat_message"),
     ("session_id", "B-A"), ("content", "hi")]
    (by decide) (by decide) (by decide)
  refine ⟨h.1, ?_⟩
  exact h.2 ⟨[], [("B-A", (⟨"B", 1⟩, ⟨"A", 0⟩))]⟩
    [(1, chatMsg "B-A" "A" "hi"), (0, chatMsg "B-A" "A" "hi")] rfl
    1 (chatMsg "B-A" "A" "hi") (by simp) (by decide)

/-! ## C9: each client occurs at most once -/

theorem countIn_append_one (l : List ChatUser) (x u : ChatUser) :
    countIn (l ++ [x]) u = countIn l u + (if x = u then 1 else 0) := by
  induction l with
  | nil => simp [countIn]
  | cons hd tl ih => simp [countIn, ih]; omega

theorem countIn_removeFirst_le (l : List ChatUser) (x u : ChatUser) :
    countIn (removeFirst l x) u ≤ countIn l u := by
  induction l with
  | nil => simp [removeFirst]
  | cons hd tl ih =>
      by_cases h : hd = x
      · simp only [removeFirst, if_pos h, countIn]; omega
      · simp only [removeFirst, if_neg h, countIn]; omega

theorem countPairs_insert_le (d : List (String × Session)) (k : String)
    (a b u : ChatUser) :
    countPairs (dictInsert d k (a, b)) u ≤
      (if a = u then 1 else 0) + (if b = u then 1 else 0) + countPairs d u := by
  induction d with
  | nil => simp [dictInsert, countPairs]
  | cons hd tl ih =>
      obtain ⟨k2, s⟩ := hd
      by_cases h : k2 = k
      · simp only [dictInsert, if_pos h, countPairs]; omega
      · simp only [dictInsert, if_neg h, countPairs]; omega

theorem countPairs_pop_le (d : List (String × Session)) (k : String)
    (u : ChatUser) : countPairs (dictPop d k) u ≤ countPairs d u := by
  induction d with
  | nil => simp [dictPop]
  | cons hd tl ih =>
      obtain ⟨k2, s⟩ := hd
      by_cases h : k2 = k
      · simp only [dictPop, if_pos h, countPairs]; omega
      · simp only [dictPop, if_neg h, countPairs]; omega

theorem countClient_end_session_le (pm : PairingManager) (sid : String)
    (u : ChatUser) :
    countClient (end_session pm sid).1 u ≤ countClient pm u := by
  cases h : dictGet? pm.active_pairs sid with
  | none => simp [end_session, h, countClient]
  | some users =>
      have := countPairs_pop_le pm.active_pairs sid u
      simp only [end_session, h, countClient]
      omega

theorem countClient_disconnect_le (pm : PairingManager) (a u : ChatUser) :
    countClient (handle_disconnect pm a).1 u ≤ countClient pm u := by
  cases hf : findSessionOf pm.active_pairs a with
  | none =>
      by_cases hm : memB pm.waiting_users a
      · have hrem := countIn_removeFirst_le pm.waiting_users a u
        simp only [handle_disconnect, hf, hm, if_true, countClient]
        omega
      · simp [handle_disconnect, hf, hm]
  | some sid =>
      have hend := countClient_end_session_le pm sid u
      by_cases hm : memB (end_session pm sid).1.waiting_users a
      · have hrem := countIn_removeFirst_le (end_session pm sid).1.waiting_users a u
        simp only [handle_disconnect, hf, hm, if_true]
        simp only [countClient] at *
        omega
      · simp only [handle_disconnect, hf, hm, Bool.false_eq_true, if_false]
        exact hend

theorem countClient_add_user_le (pm : PairingManager) (user : ChatUser)
    (hfresh : countClient pm user = 0) (hinv : ∀ v, countClient pm v ≤ 1)
    (u : ChatUser) : countClient (add_user pm user).1 u ≤ 1 := by
  have h1 := hinv u
  cases hw : pm.waiting_users with
  | nil =>
      rw [countClient, hw] at h1 hfresh
      simp only [countIn] at h1 hfresh
      simp only [add_user, hw, List.nil_append, countClient, countIn]
      split_ifs with hu
      · rw [hu] at hfresh
        omega
      · omega
  | cons partner rest =>
      have hle := countPairs_insert_le pm.active_pairs
        (user.username ++ "-" ++ partner.username) user partner u
      rw [countClient, hw] at h1 hfresh
      simp only [countIn] at h1 hfresh
      simp only [add_user, hw, countClient]
      by_cases hu : user = u
      · subst hu
        have e1 : (if user = user then (1 : Nat) else 0) = 1 := if_pos rfl
        omega
      · have e0 : (if user = u then (1 : Nat) else 0) = 0 := if_neg hu
        omega

/-- Claim C9: in every state reachable from the empty manager by the core
operations (enqueue_or_match with a freshly built client, the disconnect
cleanup, and unregister/end_session; registration happens inside
add_user), every client occurs at most once across the Waiting List and
the member lists of all registered sessions. -/
theorem C9_client_at_most_once (pm : PairingManager) (h : Reachable pm) :
    ∀ u, countClient pm u ≤ 1 := by
  induction h with
  | init => intro u; simp [countClient, countIn, countPairs]
  | step pm0 pm2 _ hs ih =>
      intro u
      cases hs with
      | add user hfresh => exact countClient_add_user_le pm0 user hfresh ih u
      | disconnect user =>
          exact le_trans (countClient_disconnect_le pm0 user u) (ih u)
      | endSession sid =>
          exact le_trans (countClient_end_session_le pm0 sid u) (ih u)

theorem C9_client_at_most_once_w :
    countClient (add_user ⟨[], []⟩ ⟨"A", 0⟩).1 ⟨"A", 0⟩ ≤ 1 := by
  exact C9_client_at_most_once (add_user ⟨[], []⟩ ⟨"A", 0⟩).1
    (Reachable.step ⟨[], []⟩ (add_user ⟨[], []⟩ ⟨"A", 0⟩).1 Reachable.init
      (Step.add ⟨[], []⟩ ⟨"A", 0⟩ (by decide))) ⟨"A", 0⟩
